import Mathlib

/-
Verification of src/sexyback3.js: the camera-ducking control loop, the
ffmpeg/ffplay pipeline supervisor, and the ZMQ control-channel client.
Each definition is a shallow embedding of the corresponding piece of the
source; line numbers refer to src/sexyback3.js.
-/

namespace Sexyback

/-- Gain applied to the looping music track while the camera is in use
(line 18: MUSIC_GAIN_ACTIVE = 0.35). -/
def MUSIC_GAIN_ACTIVE : ℚ := 0.35

/-- Camera poll interval in milliseconds (line 21: CAM_POLL_MS = 150). -/
def CAM_POLL_MS : ℕ := 150

/-- Debounce delay in milliseconds passed to setTimeout when the camera goes
idle (line 264: the literal 300). -/
def STOP_DEBOUNCE_MS : ℕ := 300

/-- Number of whole poll intervals spanned by the debounce window (300 ms /
150 ms = 2). The timer armed during one poll iteration expires two sleep
intervals later, during the await that precedes the second-following reading. -/
def debouncePolls : ℕ := STOP_DEBOUNCE_MS / CAM_POLL_MS

/-- A control command issued by the loop: a call to setMusicVolume with the
given gain. The debounce-timer callback sends 0 (line 263), the activation
branch sends MUSIC_GAIN_ACTIVE (line 257). -/
inductive Cmd where
  | setMusicVolume (vol : ℚ)
deriving DecidableEq

/-- The mutable state of the main loop (lines 248-249): camWasActive is the
raw reading observed at the previous poll, stopTimer is the pending debounce
timer, if armed, counted in remaining poll intervals before it fires. -/
structure LoopState where
  camWasActive : Bool
  stopTimer : Option ℕ
deriving DecidableEq

/-- One poll interval elapsing for an armed debounce timer. The timer armed
with setTimeout(cb, 300) fires during an await (sleep or probe), before the
next reading is processed; in poll units it fires once its countdown is
exhausted, emitting the mute command setMusicVolume(0.0) of line 263. -/
def tickTimer (t : Option ℕ) : Option ℕ × List Cmd :=
  match t with
  | none => (none, [])
  | some k => if k ≤ 1 then (none, [Cmd.setMusicVolume 0]) else (some (k - 1), [])

/-- One iteration of the main loop (lines 251-269) processing the probe
reading `active`. First any expired debounce timer fires (its callback ran
during the awaits since the previous reading), then the two transition
branches run: line 254 (activation: clearTimeout then
setMusicVolume(MUSIC_GAIN_ACTIVE)) and line 258 (first false after a true:
clearTimeout then re-arm the stop timer). Finally camWasActive := active. -/
def step (s : LoopState) (active : Bool) : LoopState × List Cmd :=
  let fired := tickTimer s.stopTimer
  if active && !s.camWasActive then
    ({ camWasActive := active, stopTimer := none },
      fired.2 ++ [Cmd.setMusicVolume MUSIC_GAIN_ACTIVE])
  else if !active && s.camWasActive then
    ({ camWasActive := active, stopTimer := some debouncePolls }, fired.2)
  else
    ({ camWasActive := active, stopTimer := fired.1 }, fired.2)

/-- Run the main loop over a finite sequence of probe readings, collecting
the issued commands in order. -/
def runLoop (s : LoopState) : List Bool → LoopState × List Cmd
  | [] => (s, [])
  | b :: bs =>
    let r1 := step s b
    let r2 := runLoop r1.1 bs
    (r2.1, r1.2 ++ r2.2)

/-- Invariant of the loop state: whenever the last reading was true no stop
timer is pending (the activation branch clears it), and an armed timer always
holds 1 or 2 remaining intervals (it is armed with debouncePolls = 2). -/
def GoodState (s : LoopState) : Prop :=
  (s.camWasActive = true → s.stopTimer = none) ∧
    (∀ k, s.stopTimer = some k → k = 1 ∨ k = 2)

-- ---- Camera detection, isWebcamInUse (lines 32-67) ----

/-- Which event settles the promise returned by isWebcamInUse: the spawned
powershell emitting an error event (line 65), or closing with the
accumulated stdout text (lines 63-64). -/
inductive SpawnOutcome where
  | errorEvent
  | closed (out : String)

/-- Whether the character list headed by `s` starts with the pattern `pat`. -/
def matchHead : List Char → List Char → Bool
  | [], _ => true
  | _ :: _, [] => false
  | p :: ps, c :: cs => p == c && matchHead ps cs

/-- Whether `pat` occurs as a contiguous run anywhere in `s`; the semantics
of JavaScript String.prototype.includes. -/
def containsPat (pat : List Char) : List Char → Bool
  | [] => matchHead pat []
  | c :: cs => matchHead pat (c :: cs) || containsPat pat cs

/-- JavaScript String.prototype.includes on Lean strings. -/
def strIncludes (s pat : String) : Bool := containsPat pat.data s.data

/-- JavaScript String.prototype.trim: strip leading and trailing whitespace. -/
def jsTrim (s : String) : String :=
  String.mk (((s.data.dropWhile Char.isWhitespace).reverse.dropWhile
    Char.isWhitespace).reverse)

/-- JavaScript String.prototype.toLowerCase, for the ASCII output produced by
the powershell script. -/
def jsToLower (s : String) : String := String.mk (s.data.map Char.toLower)

/-- The boolean the promise of isWebcamInUse resolves to (lines 64-65):
false on a spawn error event, otherwise
out.trim().toLowerCase().includes("true") on the collected stdout. Every
handler resolves; no path rejects. -/
def isWebcamInUse : SpawnOutcome → Bool
  | SpawnOutcome.errorEvent => false
  | SpawnOutcome.closed out => strIncludes (jsToLower (jsTrim out)) "true"

-- ---- ZMQ control channel: initZmq (212-217) and setMusicVolume (220-230) ----

/-- Connection failure reported by the zmq Request socket's connect. -/
structure ConnError where
  msg : String
deriving DecidableEq

/-- initZmq (lines 212-217): assigns zmqSock := new zmq.Request() first, then
awaits connect. The function installs no try/catch, so the outcome of the
external connect (supplied here as a parameter) propagates unchanged to the
caller; the socket global is assigned either way. Returns (zmqSock, outcome). -/
def initZmq (connectOutcome : Except ConnError Unit) :
    Option Unit × Except ConnError Unit :=
  (some (), match connectOutcome with
    | Except.error e => Except.error e
    | Except.ok _ => Except.ok ())

/-- Environment of one setMusicVolume call: whether zmqSock.send throws,
whether zmqSock.receive throws, and the reply text delivered when it does
not. All three are behavior of the external channel. -/
structure ChanEnv where
  sendFails : Bool
  recvFails : Bool
  reply : String
deriving DecidableEq

/-- Observable result of one setMusicVolume call: the command strings that
were handed to zmqSock.send, and whether the call rejected. -/
structure ChanResult where
  sent : List String
  threw : Bool
deriving DecidableEq

/-- setMusicVolume (lines 220-230). If zmqSock is null it returns at once
(line 221). Otherwise it builds the single text command
"volume@mus volume <vol>" (line 222; the numeric rendering of the gain is
supplied as the string volStr), sends it, and awaits one reply whose content
is discarded. A send error is swallowed by the surrounding try/catch
(line 227); a receive error is swallowed by .catch (line 226); so the call
never rejects. -/
def setMusicVolume (sock : Option Unit) (volStr : String) (env : ChanEnv) :
    ChanResult :=
  match sock with
  | none => { sent := [], threw := false }
  | some _ =>
    let cmd := "volume@mus volume " ++ volStr
    if env.sendFails then { sent := [], threw := false }
    else { sent := [cmd], threw := false }

-- ---- Pipeline supervisor: startPipeline (70-182), stopPipeline (185-209) ----

/-- The two supervised subprocesses. -/
inductive ProcId where
  | ffmpeg
  | ffplay
deriving DecidableEq

/-- A child-process handle as the supervisor sees it: whether kill was
already delivered, and whether its stdout / stdin stream objects exist. -/
structure ProcHandle where
  killed : Bool
  hasStdout : Bool
  hasStdin : Bool
deriving DecidableEq

/-- The supervisor's global state (lines 26-29): the two process handles
(null when absent) and the stopping flag. -/
structure SupState where
  procFfmpeg : Option ProcHandle
  procFfplay : Option ProcHandle
  stopping : Bool
deriving DecidableEq

/-- External side effects the supervisor can perform. -/
inductive SupAction where
  | markStopping
  | unpipe
  | endSinkStdin
  | destroySinkStdin
  | kill (target : ProcId) (signal : String)
deriving DecidableEq

/-- The supervisor's reaction to a subprocess close event. startPipeline
registers exactly one such handler: procFfplay.on("close", ...) at lines
172-177, which kills ffmpeg with SIGTERM when not stopping and the ffmpeg
handle is live and unkilled. No close handler is registered on procFfmpeg
(only the error logger of line 138), so an encoder exit triggers no
supervisor reaction. -/
def supervisorOnClose (which : ProcId) (s : SupState) : List SupAction :=
  match which with
  | ProcId.ffplay =>
    if !s.stopping &&
        (match s.procFfmpeg with
          | some p => !p.killed
          | none => false) then
      [SupAction.kill ProcId.ffmpeg "SIGTERM"]
    else []
  | ProcId.ffmpeg => []

/-- Which primitive steps of stopPipeline throw when attempted; every one is
individually wrapped in try { } catch { } in the source. -/
structure StopEnv where
  unpipeThrows : Bool
  endThrows : Bool
  destroyThrows : Bool
  killFfplayThrows : Bool
  killFfmpegThrows : Bool
deriving DecidableEq

/-- A primitive statement wrapped in try { } catch { }: the action is
performed unless it throws, and a throw is swallowed. -/
def attemptAct (throws : Bool) (a : SupAction) : List SupAction :=
  if throws then [] else [a]

/-- stopPipeline (lines 185-209). Sets stopping := true first (line 186,
recorded as the leading markStopping action); if both handles and their
streams exist, unpipes and ends and destroys the sink's stdin (lines
188-198); then kills ffplay and ffmpeg with SIGTERM via optional chaining
(lines 200-205), so absent handles are skipped; finally nulls both handles
(lines 206-207). Every step is inside try/catch, so no environment failure
escapes, and the resulting state does not depend on the environment. -/
def stopPipeline (env : StopEnv) (s : SupState) : SupState × List SupAction :=
  let streamActs :=
    match s.procFfmpeg, s.procFfplay with
    | some pf, some pp =>
      if pf.hasStdout && pp.hasStdin then
        attemptAct env.unpipeThrows SupAction.unpipe ++
          attemptAct env.endThrows SupAction.endSinkStdin ++
          attemptAct env.destroyThrows SupAction.destroySinkStdin
      else []
    | _, _ => []
  let killSink :=
    match s.procFfplay with
    | some _ => attemptAct env.killFfplayThrows (SupAction.kill ProcId.ffplay "SIGTERM")
    | none => []
  let killEnc :=
    match s.procFfmpeg with
    | some _ => attemptAct env.killFfmpegThrows (SupAction.kill ProcId.ffmpeg "SIGTERM")
    | none => []
  ({ procFfmpeg := none, procFfplay := none, stopping := true },
    SupAction.markStopping :: (streamActs ++ killSink ++ killEnc))

-- ---- Event-level model of command issuance for the serialization claim ----

/-- Who owns an outstanding request on the zmq Request socket: the awaited
setMusicVolume of the activation branch (line 257), or the fire-and-forget
setMusicVolume(0.0) of the debounce-timer callback (line 263). -/
inductive Flight where
  | mainActive
  | timerMute
deriving DecidableEq

/-- State of the event-level model: the loop variables, the request currently
awaiting its reply on the Request socket (the channel is strict
request/reply), whether the main loop is suspended inside the awaited
setMusicVolume of line 257, and a record of the first send attempted while a
prior request was still awaiting its reply (holding that prior request). -/
structure EvState where
  camWasActive : Bool
  timer : Option ℕ
  inFlight : Option Flight
  mainBlocked : Bool
  overlapOn : Option Flight
deriving DecidableEq

/-- Events of the interleaved execution: a poll iteration of the main loop
processing reading b, the armed debounce timer expiring and running its
callback, and the external engine delivering the reply that completes the
outstanding request. -/
inductive Ev where
  | poll (b : Bool)
  | timerExpire
  | replyArrive
deriving DecidableEq

/-- A send attempted on the Request socket. If no request is outstanding it
becomes the outstanding one; otherwise the strict request/reply alternation
makes send throw, the error is swallowed by setMusicVolume's try/catch, the
command is dropped, and the overlap (with the request that was in flight) is
recorded. -/
def trySend (s : EvState) (f : Flight) : EvState × Bool :=
  match s.inFlight with
  | none => ({ s with inFlight := some f }, true)
  | some g =>
    ({ s with overlapOn := match s.overlapOn with
        | some h' => some h'
        | none => some g }, false)

/-- The body of the loop iteration (lines 254-267) at event level: the
activation branch clears the timer and awaits setMusicVolume, so a
successful send leaves the main loop blocked until the reply arrives; a
failed (overlapping) send is swallowed and the loop continues. The
deactivation branch arms the debounce timer. -/
def pollBranch (s : EvState) (b : Bool) : EvState :=
  if b && !s.camWasActive then
    let s1 := { s with timer := none }
    let r := trySend s1 Flight.mainActive
    { r.1 with camWasActive := b, mainBlocked := r.2 }
  else if !b && s.camWasActive then
    { s with timer := some debouncePolls, camWasActive := b }
  else
    { s with camWasActive := b }

/-- The debounce-timer callback (lines 262-264): it calls setMusicVolume(0.0)
without awaiting it, so a successful send leaves the request outstanding
while the main loop keeps running. -/
def fireMute (s : EvState) : EvState :=
  (trySend s Flight.timerMute).1

/-- One admissible event. A poll requires the main loop not to be suspended
in an awaited send, and an armed timer whose window has elapsed must expire
before the next reading is processed (the callback runs during the preceding
awaits); the elapsed sleep interval decrements an armed timer. replyArrive
requires an outstanding request and, when it completes the main loop's own
awaited request, unblocks the loop. -/
def evStep (s : EvState) : Ev → Option EvState
  | Ev.poll b =>
    if s.mainBlocked then none
    else
      match s.timer with
      | some k =>
        if k ≤ 1 then none
        else some (pollBranch { s with timer := some (k - 1) } b)
      | none => some (pollBranch s b)
  | Ev.timerExpire =>
    match s.timer with
    | some k => if k ≤ 1 then some (fireMute { s with timer := none }) else none
    | none => none
  | Ev.replyArrive =>
    match s.inFlight with
    | some f =>
      if f = Flight.mainActive then
        some { s with inFlight := none, mainBlocked := false }
      else
        some { s with inFlight := none }
    | none => none

/-- Run a schedule of events; none if some event is inadmissible. -/
def runEv (s : EvState) : List Ev → Option EvState
  | [] => some s
  | e :: es =>
    match evStep s e with
    | none => none
    | some s' => runEv s' es

/-- The state at loop entry: camera inactive, no timer, no outstanding
request (the startup setMusicVolume(0.0) of line 245 was awaited before the
loop began). -/
def evInit : EvState :=
  { camWasActive := false, timer := none, inFlight := none,
    mainBlocked := false, overlapOn := none }

/-- Invariant of the event-level model: the main loop is suspended exactly
when its own awaited request is the outstanding one, a suspended loop has no
armed timer (the activation branch cleared it before sending), and no
overlap against a main-loop request has ever been recorded. -/
def EvInv (s : EvState) : Prop :=
  (s.mainBlocked = true ↔ s.inFlight = some Flight.mainActive) ∧
    (s.mainBlocked = true → s.timer = none) ∧
    s.overlapOn ≠ some Flight.mainActive

/-- The schedule exhibiting an overlapping send: activate, reply, two idle
readings arming and running down the debounce, the timer fires its
fire-and-forget mute, and while that mute still awaits its reply the next
true reading makes the loop attempt another send. -/
def overlapSchedule : List Ev :=
  [Ev.poll true, Ev.replyArrive, Ev.poll false, Ev.poll false,
    Ev.timerExpire, Ev.poll true]

-- ---- Helper lemmas ----

/-- While readings stay true and the loop is in the active state with no
timer, every iteration takes the no-op branch and issues nothing. -/
theorem runLoop_trues (n : ℕ) :
    runLoop { camWasActive := true, stopTimer := none } (List.replicate n true) =
      ({ camWasActive := true, stopTimer := none }, []) := by
  induction n with
  | zero => rfl
  | succ m ih => simp [List.replicate, runLoop, step, tickTimer, ih]

/-- Every loop step preserves the GoodState invariant: a true last reading
comes from the activation or no-op branch with a cleared timer, and any armed
timer was armed at debouncePolls = 2 and only counts down to 1 before
firing. -/
theorem goodState_step (s : LoopState) (b : Bool) (h : GoodState s) :
    GoodState (step s b).1 := by
  obtain ⟨c, t⟩ := s
  obtain ⟨h1, h2⟩ := h
  rcases t with _ | k
  · cases b <;> cases c <;>
      simp_all [step, tickTimer, GoodState, debouncePolls, STOP_DEBOUNCE_MS, CAM_POLL_MS]
  · have hk := h2 k rfl
    have hc : c = false := by
      cases c
      · rfl
      · exact absurd (h1 rfl) (by simp)
    subst hc
    rcases hk with rfl | rfl <;> cases b <;>
      simp_all [step, tickTimer, GoodState, debouncePolls, STOP_DEBOUNCE_MS, CAM_POLL_MS]

/-- Any state with no armed timer satisfies the invariant. -/
theorem goodState_of_none (c : Bool) : GoodState ⟨c, none⟩ :=
  ⟨fun _ => rfl, fun _ hk => Option.noConfusion hk⟩

/-- An inactive state whose armed timer holds 1 or 2 remaining intervals
satisfies the invariant. -/
theorem goodState_of_some {k : ℕ} (h : k = 1 ∨ k = 2) : GoodState ⟨false, some k⟩ := by
  refine ⟨fun hx => Bool.noConfusion hx, fun k' hk => ?_⟩
  injection hk with hk
  subst hk
  exact h

/-- Provenance of a mute command. If running the loop from a GoodState state
ever issues setMusicVolume(0.0), then either the timer was already about to
fire, or it was freshly armed and the very next reading is false, or the
reading sequence contains two consecutive false readings (the arming reading
and the one poll of the window during which no true intervened). -/
theorem mute_mem_runLoop :
    ∀ (bs : List Bool) (s : LoopState), GoodState s →
      Cmd.setMusicVolume 0 ∈ (runLoop s bs).2 →
      s.stopTimer = some 1 ∨
        (s.stopTimer = some 2 ∧ bs.head? = some false) ∨
        ∃ i, bs[i]? = some false ∧ bs[i + 1]? = some false
  | [], _, _, h => by simp [runLoop] at h
  | b :: bs, s, hg, h => by
    obtain ⟨c, t⟩ := s
    have hne : Cmd.setMusicVolume 0 ≠ Cmd.setMusicVolume MUSIC_GAIN_ACTIVE := by
      simp only [Cmd.setMusicVolume.injEq, MUSIC_GAIN_ACTIVE]
      norm_num
    rcases t with _ | k
    · -- no timer armed at this step
      cases b
      · cases c
        · -- reading false, was false: no-op branch
          have hstep : step ⟨false, none⟩ false = (⟨false, none⟩, []) := rfl
          simp only [runLoop, hstep, List.nil_append] at h
          rcases mute_mem_runLoop bs ⟨false, none⟩ (goodState_of_none false) h with
            h1 | h2 | ⟨i, hi1, hi2⟩
          · exact absurd h1 (by simp)
          · exact absurd h2.1 (by simp)
          · exact Or.inr (Or.inr ⟨i + 1, by simpa using hi1, by simpa using hi2⟩)
        · -- reading false, was true: the debounce timer is armed, no command
          have hstep : step ⟨true, none⟩ false =
              (⟨false, some debouncePolls⟩, []) := rfl
          simp only [runLoop, hstep, List.nil_append] at h
          rcases mute_mem_runLoop bs ⟨false, some debouncePolls⟩
              (goodState_of_some (Or.inr rfl)) h with h1 | h2 | ⟨i, hi1, hi2⟩
          · exact absurd h1 (by simp [debouncePolls, STOP_DEBOUNCE_MS, CAM_POLL_MS])
          · -- the armed timer fires only if the next reading is also false
            rcases bs with _ | ⟨b0, bs'⟩
            · simp at h2
            · have hb0 : b0 = false := by simpa using h2.2
              subst hb0
              exact Or.inr (Or.inr ⟨0, by simp, by simp⟩)
          · exact Or.inr (Or.inr ⟨i + 1, by simpa using hi1, by simpa using hi2⟩)
      · cases c
        · -- reading true, was false: activation command, not a mute
          have hstep : step ⟨false, none⟩ true =
              (⟨true, none⟩, [Cmd.setMusicVolume MUSIC_GAIN_ACTIVE]) := rfl
          simp only [runLoop, hstep, List.cons_append, List.nil_append,
            List.mem_cons] at h
          rcases h with h | h
          · exact absurd h hne
          · rcases mute_mem_runLoop bs ⟨true, none⟩ (goodState_of_none true) h with
              h1 | h2 | ⟨i, hi1, hi2⟩
            · exact absurd h1 (by simp)
            · exact absurd h2.1 (by simp)
            · exact Or.inr (Or.inr ⟨i + 1, by simpa using hi1, by simpa using hi2⟩)
        · -- reading true, was true: no-op branch
          have hstep : step ⟨true, none⟩ true = (⟨true, none⟩, []) := rfl
          simp only [runLoop, hstep, List.nil_append] at h
          rcases mute_mem_runLoop bs ⟨true, none⟩ (goodState_of_none true) h with
            h1 | h2 | ⟨i, hi1, hi2⟩
          · exact absurd h1 (by simp)
          · exact absurd h2.1 (by simp)
          · exact Or.inr (Or.inr ⟨i + 1, by simpa using hi1, by simpa using hi2⟩)
    · -- a timer is armed with k remaining intervals; GoodState gives k = 1 or 2
      have hk := hg.2 k rfl
      have hc : c = false := by
        cases c
        · rfl
        · exact absurd (hg.1 rfl) (by simp)
      subst hc
      rcases hk with rfl | rfl
      · exact Or.inl rfl
      · cases b
        · -- reading false: timer keeps counting down to 1
          have hstep : step ⟨false, some 2⟩ false = (⟨false, some 1⟩, []) := rfl
          simp only [runLoop, hstep, List.nil_append] at h
          rcases mute_mem_runLoop bs ⟨false, some 1⟩ (goodState_of_some (Or.inl rfl)) h with
            h1 | h2 | ⟨i, hi1, hi2⟩
          · exact Or.inr (Or.inl ⟨rfl, rfl⟩)
          · exact absurd h2.1 (by simp)
          · exact Or.inr (Or.inr ⟨i + 1, by simpa using hi1, by simpa using hi2⟩)
        · -- reading true: the activation branch cancels the armed timer
          have hstep : step ⟨false, some 2⟩ true =
              (⟨true, none⟩, [Cmd.setMusicVolume MUSIC_GAIN_ACTIVE]) := rfl
          simp only [runLoop, hstep, List.cons_append, List.nil_append,
            List.mem_cons] at h
          rcases h with h | h
          · exact absurd h hne
          · rcases mute_mem_runLoop bs ⟨true, none⟩ (goodState_of_none true) h with
              h1 | h2 | ⟨i, hi1, hi2⟩
            · exact absurd h1 (by simp)
            · exact absurd h2.1 (by simp)
            · exact Or.inr (Or.inr ⟨i + 1, by simpa using hi1, by simpa using hi2⟩)

-- ---- C1 ----

/-- C1: from the Inactive state (last reading false, no pending timer), for
every run of readings that starts with a true and stays true, the active
command setMusicVolume(MUSIC_GAIN_ACTIVE) is issued exactly on the first
true poll and no command at all is issued on the subsequent polls. -/
theorem activeCommandOnFirstTrue (s : LoopState) (n : ℕ)
    (h1 : s.camWasActive = false) (h2 : s.stopTimer = none) :
    runLoop s (true :: List.replicate n true) =
      ({ camWasActive := true, stopTimer := none },
        [Cmd.setMusicVolume MUSIC_GAIN_ACTIVE]) := by
  have hs : s = ⟨false, none⟩ := by
    cases s
    simp_all
  subst hs
  simp [runLoop, step, tickTimer, runLoop_trues]

/-- Witness for C1: three consecutive true readings from the initial state
issue exactly one active command. -/
theorem activeCommandOnFirstTrue_witness :
    runLoop { camWasActive := false, stopTimer := none } (true :: List.replicate 2 true) =
      ({ camWasActive := true, stopTimer := none },
        [Cmd.setMusicVolume MUSIC_GAIN_ACTIVE]) :=
  activeCommandOnFirstTrue _ 2 rfl rfl

-- ---- C2 ----

/-- C2: from the Active state, a single false reading issues no command at
all: it only arms the debounce timer (first conjunct). And whenever a run of
readings from the Active state ever issues the mute setMusicVolume(0.0),
the sequence contains two consecutive false readings, i.e. false persisted
for the whole debounce window (two poll intervals) with no intervening true:
the timer armed at the first false fired uncancelled. -/
theorem muteOnlyAfterPersistentFalse (bs : List Bool)
    (h : Cmd.setMusicVolume 0 ∈
      (runLoop { camWasActive := true, stopTimer := none } bs).2) :
    step { camWasActive := true, stopTimer := none } false =
        ({ camWasActive := false, stopTimer := some debouncePolls }, []) ∧
      ∃ i, bs[i]? = some false ∧ bs[i + 1]? = some false := by
  refine ⟨rfl, ?_⟩
  rcases mute_mem_runLoop bs ⟨true, none⟩ (goodState_of_none true) h with
    h1 | h2 | h3
  · exact absurd h1 (by simp)
  · exact absurd h2.1 (by simp)
  · exact h3

/-- Witness for C2: the readings [false, false, false] from the Active state
do issue the mute, and the persistence conclusion holds at position 0. -/
theorem muteOnlyAfterPersistentFalse_witness :
    (Cmd.setMusicVolume 0 ∈
        (runLoop { camWasActive := true, stopTimer := none } [false, false, false]).2) ∧
      (step { camWasActive := true, stopTimer := none } false =
          ({ camWasActive := false, stopTimer := some debouncePolls }, []) ∧
        ∃ i, [false, false, false][i]? = some false ∧
          [false, false, false][i + 1]? = some false) := by
  have hmem : Cmd.setMusicVolume 0 ∈
      (runLoop { camWasActive := true, stopTimer := none } [false, false, false]).2 := by
    decide
  exact ⟨hmem, muteOnlyAfterPersistentFalse [false, false, false] hmem⟩

-- ---- C3 ----

/-- C3: a true reading observed while the debounce timer is still armed
cancels the pending mute: the step clears the timer and issues no mute (only
the activation command of the Inactive-to-Active branch, which per the state
machine re-raises the gain and cancels any pending timer). Concretely, the
scenario [T, F, T] followed by any run of true readings issues exactly the
two activation commands and zero mute commands, and ends with no timer
pending. -/
theorem trueCancelsPendingMute :
    (∀ s : LoopState, s.camWasActive = false → s.stopTimer = some debouncePolls →
        step s true =
          ({ camWasActive := true, stopTimer := none },
            [Cmd.setMusicVolume MUSIC_GAIN_ACTIVE])) ∧
      ∀ n, runLoop { camWasActive := false, stopTimer := none }
          ([true, false, true] ++ List.replicate n true) =
        ({ camWasActive := true, stopTimer := none },
          [Cmd.setMusicVolume MUSIC_GAIN_ACTIVE, Cmd.setMusicVolume MUSIC_GAIN_ACTIVE]) := by
  constructor
  · intro s h1 h2
    have hs : s = ⟨false, some debouncePolls⟩ := by
      cases s
      simp_all
    subst hs
    rfl
  · intro n
    simp [runLoop, step, tickTimer, runLoop_trues, debouncePolls,
      STOP_DEBOUNCE_MS, CAM_POLL_MS]

/-- Witness for C3: the cancelling step at a concrete armed state, and the
scenario [T, F, T] itself with zero mute commands. -/
theorem trueCancelsPendingMute_witness :
    step { camWasActive := false, stopTimer := some debouncePolls } true =
        ({ camWasActive := true, stopTimer := none },
          [Cmd.setMusicVolume MUSIC_GAIN_ACTIVE]) ∧
      runLoop { camWasActive := false, stopTimer := none }
          ([true, false, true] ++ List.replicate 0 true) =
        ({ camWasActive := true, stopTimer := none },
          [Cmd.setMusicVolume MUSIC_GAIN_ACTIVE, Cmd.setMusicVolume MUSIC_GAIN_ACTIVE]) :=
  ⟨trueCancelsPendingMute.1 _ rfl rfl, trueCancelsPendingMute.2 0⟩

-- ---- C6 ----

/-- C6: stopPipeline is idempotent and never throws. For every failure
pattern of the primitive steps and every prior state: the resulting state has
stopping = true and both handles nulled, independent of which primitives
threw; the stopping flag is set before any other step; and a second call,
under any failure pattern, leaves the state unchanged and performs no kill
or stream side effect (its action list is just the flag assignment), so no
duplicate kills occur. Generality over s covers a call before start
completes (both handles null) and after the processes exited. -/
theorem stopPipelineIdempotent (env env₂ : StopEnv) (s : SupState) :
    (stopPipeline env s).1 =
        { procFfmpeg := none, procFfplay := none, stopping := true } ∧
      (stopPipeline env s).1 = (stopPipeline env₂ s).1 ∧
      (stopPipeline env s).2.head? = some SupAction.markStopping ∧
      stopPipeline env₂ (stopPipeline env s).1 =
        ({ procFfmpeg := none, procFfplay := none, stopping := true },
          [SupAction.markStopping]) := by
  refine ⟨rfl, rfl, ?_, rfl⟩
  simp [stopPipeline]

-- ---- C7 ----

/-- C7: the activity probe isWebcamInUse resolves to a boolean on every
outcome of the external query and never rejects (the embedding is a total
function into Bool because both registered handlers resolve). A spawn error
event resolves to false; empty output resolves to false; output with no
occurrence of "true", such as a parse error message, resolves to false; and
in general a close outcome resolves to exactly
out.trim().toLowerCase().includes("true"). -/
theorem probeNeverThrows :
    isWebcamInUse SpawnOutcome.errorEvent = false ∧
      isWebcamInUse (SpawnOutcome.closed "") = false ∧
      isWebcamInUse (SpawnOutcome.closed "Get-ChildItem : Access is denied") = false ∧
      isWebcamInUse (SpawnOutcome.closed " True\r\n") = true ∧
      ∀ out, isWebcamInUse (SpawnOutcome.closed out) =
        strIncludes (jsToLower (jsTrim out)) "true" := by
  refine ⟨rfl, rfl, by decide, by decide, fun out => rfl⟩

-- ---- C8 ----

/-- C8: setMusicVolume with a connected socket never rejects; when the
transport accepts the send it hands exactly one text command to the socket,
namely "volume@mus volume <v>"; and the result is independent of the reply
content, which is discarded. Transport failures (send error, missing or
failed reply) are swallowed and the call still completes. -/
theorem setMusicVolumeSendsOneCommand (vs : String) (sf rf : Bool) (r₁ r₂ : String) :
    (setMusicVolume (some ()) vs { sendFails := sf, recvFails := rf, reply := r₁ }).threw = false ∧
      (sf = false →
        (setMusicVolume (some ()) vs { sendFails := sf, recvFails := rf, reply := r₁ }).sent =
          ["volume@mus volume " ++ vs]) ∧
      setMusicVolume (some ()) vs { sendFails := sf, recvFails := rf, reply := r₁ } =
        setMusicVolume (some ()) vs { sendFails := sf, recvFails := rf, reply := r₂ } := by
  refine ⟨?_, ?_, ?_⟩
  · cases sf <;> rfl
  · intro h
    subst h
    rfl
  · cases sf <;> rfl

/-- Witness for C8 at a concrete call: sending the active gain with a healthy
transport yields exactly the command "volume@mus volume 0.35" and no throw. -/
theorem setMusicVolumeSendsOneCommand_witness :
    (setMusicVolume (some ()) "0.35" { sendFails := false, recvFails := false, reply := "OK" }).sent =
        ["volume@mus volume 0.35"] ∧
      (setMusicVolume (some ()) "0.35" { sendFails := false, recvFails := false, reply := "OK" }).threw = false := by
  have h := setMusicVolumeSendsOneCommand "0.35" false false "OK" "ERR"
  exact ⟨h.2.1 rfl, h.1⟩

-- ---- C9 ----

/-- C9: initZmq installs no handler around the external connect, so when the
endpoint is unreachable and connect fails with a connection error, that
error propagates unchanged to the caller (main's catch) instead of being
swallowed; on success the call completes and the socket global is set. -/
theorem initZmqPropagatesConnectError (e : ConnError) :
    (initZmq (Except.error e)).2 = Except.error e ∧
      (initZmq (Except.ok ())).2 = Except.ok () ∧
      (initZmq (Except.ok ())).1 = some () := by
  exact ⟨rfl, rfl, rfl⟩

-- ---- C4 ----

/-- A loop iteration preserves the event-level invariant, provided the main
loop is running (not suspended in an awaited send), its own request is not
the outstanding one, and no overlap against a main-loop request happened
yet. -/
theorem evInv_pollBranch (s : EvState) (b : Bool)
    (hb : s.mainBlocked = false) (hf : s.inFlight ≠ some Flight.mainActive)
    (ho : s.overlapOn ≠ some Flight.mainActive) :
    EvInv (pollBranch s b) := by
  obtain ⟨c, t, fl, mb, ov⟩ := s
  have hmb : mb = false := hb
  subst hmb
  rcases fl with _ | g
  · cases b <;> cases c <;> simp_all [pollBranch, trySend, EvInv]
  · cases g
    · exact absurd rfl hf
    · rcases ov with _ | h'
      · cases b <;> cases c <;> simp_all [pollBranch, trySend, EvInv]
      · cases b <;> cases c <;> simp_all [pollBranch, trySend, EvInv]

/-- The debounce-timer callback preserves the event-level invariant under
the same side conditions. -/
theorem evInv_fireMute (s : EvState)
    (hb : s.mainBlocked = false) (hf : s.inFlight ≠ some Flight.mainActive)
    (ho : s.overlapOn ≠ some Flight.mainActive) :
    EvInv (fireMute s) := by
  obtain ⟨c, t, fl, mb, ov⟩ := s
  have hmb : mb = false := hb
  subst hmb
  rcases fl with _ | g
  · simp_all [fireMute, trySend, EvInv]
  · cases g
    · exact absurd rfl hf
    · rcases ov with _ | h' <;> simp_all [fireMute, trySend, EvInv]

/-- Every admissible event preserves the event-level invariant. -/
theorem evInv_evStep (s s' : EvState) (e : Ev) (hi : EvInv s)
    (h : evStep s e = some s') : EvInv s' := by
  obtain ⟨hi1, hi2, hi3⟩ := hi
  cases e with
  | poll b =>
    simp only [evStep] at h
    cases hmb : s.mainBlocked
    · rw [hmb] at h
      simp only [Bool.false_eq_true, if_false] at h
      have hfne : s.inFlight ≠ some Flight.mainActive := fun hfl => by
        rw [hi1.mpr hfl] at hmb
        exact Bool.noConfusion hmb
      cases ht : s.timer
      · rw [ht] at h
        injection h with h
        subst h
        exact evInv_pollBranch s b hmb hfne hi3
      case some k =>
        rw [ht] at h
        have h' : (if k ≤ 1 then (none : Option EvState)
            else some (pollBranch
              { camWasActive := s.camWasActive, timer := some (k - 1),
                inFlight := s.inFlight, mainBlocked := false,
                overlapOn := s.overlapOn } b)) = some s' := h
        by_cases hk : k ≤ 1
        · rw [if_pos hk] at h'
          exact Option.noConfusion h'
        · rw [if_neg hk] at h'
          injection h' with h'
          subst h'
          exact evInv_pollBranch
            { camWasActive := s.camWasActive, timer := some (k - 1),
              inFlight := s.inFlight, mainBlocked := false,
              overlapOn := s.overlapOn } b rfl hfne hi3
    · rw [hmb] at h
      simp at h
  | timerExpire =>
    simp only [evStep] at h
    cases ht : s.timer
    · rw [ht] at h
      exact Option.noConfusion h
    case some k =>
      rw [ht] at h
      have h' : (if k ≤ 1 then some (fireMute { s with timer := none })
          else (none : Option EvState)) = some s' := h
      by_cases hk : k ≤ 1
      · rw [if_pos hk] at h'
        injection h' with h'
        subst h'
        have hmb : s.mainBlocked = false := by
          cases hmbv : s.mainBlocked
          · rfl
          · have hnone := hi2 hmbv
            rw [ht] at hnone
            exact Option.noConfusion hnone
        have hfne : s.inFlight ≠ some Flight.mainActive := fun hfl => by
          rw [hi1.mpr hfl] at hmb
          exact Bool.noConfusion hmb
        exact evInv_fireMute { s with timer := none } hmb hfne hi3
      · rw [if_neg hk] at h'
        exact Option.noConfusion h'
  | replyArrive =>
    simp only [evStep] at h
    cases hfl : s.inFlight
    · rw [hfl] at h
      exact Option.noConfusion h
    case some f =>
      rw [hfl] at h
      cases f
      · have h' : some ({ s with inFlight := none, mainBlocked := false } : EvState) =
            some s' := h
        injection h' with h'
        subst h'
        refine ⟨by simp, by simp, hi3⟩
      · have h' : some ({ s with inFlight := none } : EvState) = some s' := h
        injection h' with h'
        subst h'
        have hmb : s.mainBlocked = false := by
          cases hmbv : s.mainBlocked
          · rfl
          · have hfa := hi1.mp hmbv
            rw [hfl] at hfa
            exact absurd hfa (by simp)
        exact ⟨by simp [hmb], by simp [hmb], hi3⟩

/-- Running any admissible schedule preserves the event-level invariant. -/
theorem evInv_runEv :
    ∀ (evs : List Ev) (s s' : EvState), EvInv s → runEv s evs = some s' → EvInv s'
  | [], _, _, hi, h => by
    injection h with h
    subst h
    exact hi
  | e :: evs, s, s', hi, h => by
    simp only [runEv] at h
    cases hst : evStep s e
    · rw [hst] at h
      exact Option.noConfusion h
    case some s₁ =>
      rw [hst] at h
      exact evInv_runEv evs s₁ s' (evInv_evStep s s₁ e hi hst) h

/-- C4 counterexample: an admissible schedule in which a second request is
sent while a prior request is still awaiting its reply. After activation and
its reply, two idle readings arm and run down the debounce; the timer fires
its fire-and-forget setMusicVolume(0.0), and before the engine delivers the
reply the next true reading makes the activation branch attempt another
send: overlapOn records the overlap, with the timer's mute in flight. This
refutes the claim that a second request is never sent while a prior request
awaits its reply. -/
theorem overlappingSendPossible :
    runEv evInit overlapSchedule =
      some { camWasActive := true, timer := none, inFlight := some Flight.timerMute,
             mainBlocked := false, overlapOn := some Flight.timerMute } := by
  rfl

/-- C4 as amended: main-loop commands are serialized (the send of the
activation branch is awaited, so the loop never sends while its own prior
request is outstanding), and every overlapping send that can occur has the
debounce-timer callback's fire-and-forget mute as the outstanding request:
overlapOn never records a main-loop request. -/
theorem overlapOnlyWithTimerMute (evs : List Ev) (s' : EvState)
    (h : runEv evInit evs = some s') :
    s'.overlapOn ≠ some Flight.mainActive :=
  (evInv_runEv evs evInit s' ⟨by simp [evInit], by simp [evInit], by simp [evInit]⟩ h).2.2

/-- Witness for C4's amended theorem: applied to the overlap schedule itself;
the recorded overlap is against the timer's mute, never a main-loop request. -/
theorem overlapOnlyWithTimerMute_witness :
    ({ camWasActive := true, timer := none, inFlight := some Flight.timerMute,
        mainBlocked := false, overlapOn := some Flight.timerMute } : EvState).overlapOn ≠
      some Flight.mainActive :=
  overlapOnlyWithTimerMute overlapSchedule _ (by rfl)

-- ---- C5 ----

/-- C5 counterexample: with both processes alive and stopping = false, an
unexpected exit of the encoder (ffmpeg) triggers no supervisor reaction at
all; in particular the paired sink (ffplay) is not terminated, refuting the
claim for "either subprocess". -/
theorem encoderExitNoReaction :
    supervisorOnClose ProcId.ffmpeg
        { procFfmpeg := some { killed := false, hasStdout := true, hasStdin := true },
          procFfplay := some { killed := false, hasStdout := true, hasStdin := true },
          stopping := false } = [] ∧
      SupAction.kill ProcId.ffplay "SIGTERM" ∉
        supervisorOnClose ProcId.ffmpeg
          { procFfmpeg := some { killed := false, hasStdout := true, hasStdin := true },
            procFfplay := some { killed := false, hasStdout := true, hasStdin := true },
            stopping := false } := by
  exact ⟨rfl, by simp [supervisorOnClose]⟩

/-- C5 as amended: fault propagation is one-directional. If the sink
(ffplay) exits while stopping is false and the encoder handle is present and
unkilled, the supervisor kills the encoder with SIGTERM; while stopping is
true a sink exit triggers no reaction; and an encoder exit triggers no
supervisor reaction in any state. -/
theorem sinkExitKillsEncoder :
    (∀ (s : SupState) (p : ProcHandle), s.stopping = false → s.procFfmpeg = some p →
        p.killed = false →
        supervisorOnClose ProcId.ffplay s = [SupAction.kill ProcId.ffmpeg "SIGTERM"]) ∧
      (∀ s : SupState, s.stopping = true → supervisorOnClose ProcId.ffplay s = []) ∧
      (∀ s : SupState, supervisorOnClose ProcId.ffmpeg s = []) := by
  refine ⟨?_, ?_, ?_⟩
  · intro s p h1 h2 h3
    simp [supervisorOnClose, h1, h2, h3]
  · intro s h1
    simp [supervisorOnClose, h1]
  · intro s
    rfl

/-- Witness for C5's amended theorem at concrete states: a live unkilled
encoder is killed on sink exit when not stopping, and nothing happens when
stopping. -/
theorem sinkExitKillsEncoder_witness :
    supervisorOnClose ProcId.ffplay
        { procFfmpeg := some { killed := false, hasStdout := true, hasStdin := true },
          procFfplay := some { killed := false, hasStdout := true, hasStdin := true },
          stopping := false } = [SupAction.kill ProcId.ffmpeg "SIGTERM"] ∧
      supervisorOnClose ProcId.ffplay
        { procFfmpeg := some { killed := false, hasStdout := true, hasStdin := true },
          procFfplay := some { killed := false, hasStdout := true, hasStdin := true },
          stopping := true } = [] :=
  ⟨sinkExitKillsEncoder.1 _ _ rfl rfl rfl, sinkExitKillsEncoder.2.1 _ rfl⟩

-- ---- C10 ----

/-- C10: calling setMusicVolume before the control connection is initialized
(zmqSock null) is a silent no-op: for every value string and every transport
environment, nothing is sent and no error is raised. -/
theorem setMusicVolumeNoSocketNoOp (vs : String) (env : ChanEnv) :
    setMusicVolume none vs env = { sent := [], threw := false } := rfl

end Sexyback
